import Mathlib

/-!
Shallow embedding of the GCompare slot-assignment engine
(`src/hooks/useFileHandlers.ts`) and the history side-swap handler
(`src/App.tsx`), with theorems settling the specification claims.

Conventions of the embedding:
* Text content is `List Char`; file bytes are `List Nat`; paths are `String`.
* The asynchronous file system is a pure oracle `FS : String → Option (List Nat)`
  (`none` models a read failure: permission / not-found / I/O error).
* React `useState` setters and `useRef` cells become fields of an explicit
  state record threaded through the operations.
* `showStatus` calls become returned status strings.
-/

/-- The two comparison sides, `"original"` (left, A) and `"modified"` (right, B). -/
inductive Side
  | original
  | modified
deriving Repr, DecidableEq

/-- The side other than the given one (`next === "original" ? "modified" : "original"`). -/
def Side.flip : Side → Side
  | .original => .modified
  | .modified => .original

/-- U+FFFD, the replacement character substituted by `TextDecoder` for
invalid sequences when constructed with `fatal: false`. -/
def replacementChar : Char := Char.ofNat 0xFFFD

/-- Whether a byte is a UTF-8 continuation byte (`0x80 ≤ b ≤ 0xBF`). -/
def isCont (b : Nat) : Bool := 0x80 ≤ b && b < 0xC0

/-- Embedding of `new TextDecoder("utf-8", { fatal: false }).decode(bytes)`:
the WHATWG UTF-8 decoder, substituting U+FFFD for every invalid sequence
and reprocessing the offending byte, never failing. -/
def decodeUtf8 : List Nat → List Char
  | [] => []
  | b :: rest =>
    if b < 0x80 then
      Char.ofNat b :: decodeUtf8 rest
    else if b < 0xC2 then
      replacementChar :: decodeUtf8 rest
    else if b < 0xE0 then
      match rest with
      | [] => [replacementChar]
      | b2 :: rest2 =>
        if isCont b2 then
          Char.ofNat ((b - 0xC0) * 0x40 + (b2 - 0x80)) :: decodeUtf8 rest2
        else
          replacementChar :: decodeUtf8 (b2 :: rest2)
    else if b < 0xF0 then
      match rest with
      | [] => [replacementChar]
      | b2 :: rest2 =>
        if (if b = 0xE0 then 0xA0 else 0x80) ≤ b2 && b2 ≤ (if b = 0xED then 0x9F else 0xBF) then
          match rest2 with
          | [] => [replacementChar]
          | b3 :: rest3 =>
            if isCont b3 then
              Char.ofNat ((b - 0xE0) * 0x1000 + (b2 - 0x80) * 0x40 + (b3 - 0x80))
                :: decodeUtf8 rest3
            else
              replacementChar :: decodeUtf8 (b3 :: rest3)
        else
          replacementChar :: decodeUtf8 (b2 :: rest2)
    else if b < 0xF5 then
      match rest with
      | [] => [replacementChar]
      | b2 :: rest2 =>
        if (if b = 0xF0 then 0x90 else 0x80) ≤ b2 && b2 ≤ (if b = 0xF4 then 0x8F else 0xBF) then
          match rest2 with
          | [] => [replacementChar]
          | b3 :: rest3 =>
            if isCont b3 then
              match rest3 with
              | [] => [replacementChar]
              | b4 :: rest4 =>
                if isCont b4 then
                  Char.ofNat
                      ((b - 0xF0) * 0x40000 + (b2 - 0x80) * 0x1000
                        + (b3 - 0x80) * 0x40 + (b4 - 0x80))
                    :: decodeUtf8 rest4
                else
                  replacementChar :: decodeUtf8 (b4 :: rest4)
            else
              replacementChar :: decodeUtf8 (b3 :: rest3)
        else
          replacementChar :: decodeUtf8 (b2 :: rest2)
    else
      replacementChar :: decodeUtf8 rest
termination_by l => l.length
decreasing_by all_goals simp_all [List.length_cons] <;> omega

/-- Embedding of `.replace(/\r\n?/g, "\n")`: each CRLF pair and each lone CR
becomes a single LF (the regex match is greedy, preferring `"\r\n"`). -/
def normalizeNewlines : List Char → List Char
  | [] => []
  | '\r' :: '\n' :: rest => '\n' :: normalizeNewlines rest
  | '\r' :: rest => '\n' :: normalizeNewlines rest
  | c :: rest => c :: normalizeNewlines rest

/-- The asynchronous file-read collaborator `readFile`: `none` is any read
failure (permission, not-found, I/O error), `some bytes` a successful read. -/
def FS : Type := String → Option (List Nat)

/-- Result of `loadFileToSide`: `{ ok, size }` with `size = bytes.length`. -/
structure LoadResult where
  ok : Bool
  size : Nat
deriving Repr, DecidableEq

/-- The state owned by the `useFileHandlers` hook: the four `useState`
values (`originalText`, `modifiedText`, `originalPath`, `modifiedPath`),
the alternation pointer `openSlotRef` and the two occupancy flags
`pathStateRef.{original,modified}`. -/
structure EngineState where
  originalText : List Char
  modifiedText : List Char
  originalPath : Option String
  modifiedPath : Option String
  openSlot : Side
  occOriginal : Bool
  occModified : Bool
deriving Repr, DecidableEq

/-- `pathStateRef.current[side]`. -/
def EngineState.occ (s : EngineState) : Side → Bool
  | .original => s.occOriginal
  | .modified => s.occModified

/-- Assignment `pathStateRef.current[side] = v`. -/
def EngineState.setOcc (s : EngineState) : Side → Bool → EngineState
  | .original, v => { s with occOriginal := v }
  | .modified, v => { s with occModified := v }

/-- The text shown on a side. -/
def EngineState.textOf (s : EngineState) : Side → List Char
  | .original => s.originalText
  | .modified => s.modifiedText

/-- The path recorded for a side. -/
def EngineState.pathOf (s : EngineState) : Side → Option String
  | .original => s.originalPath
  | .modified => s.modifiedPath

/-- `setOriginalText` / `setModifiedText`. -/
def EngineState.setText (s : EngineState) : Side → List Char → EngineState
  | .original, c => { s with originalText := c }
  | .modified, c => { s with modifiedText := c }

/-- `setOriginalPath` / `setModifiedPath`. -/
def EngineState.setPath (s : EngineState) : Side → Option String → EngineState
  | .original, p => { s with originalPath := p }
  | .modified, p => { s with modifiedPath := p }

/-- Embedding of `loadFileToSide`: read the bytes, decode with the
non-fatal UTF-8 decoder, normalize line endings, store path and text on
the side; a failed read changes nothing and reports `{ ok: false, size: 0 }`. -/
def loadFileToSide (fs : FS) (path : String) (side : Side) (s : EngineState) :
    LoadResult × EngineState :=
  match fs path with
  | some bytes =>
      let contents := normalizeNewlines (decodeUtf8 bytes)
      (⟨true, bytes.length⟩, (s.setPath side (some path)).setText side contents)
  | none => (⟨false, 0⟩, s)

/-- Embedding of `resolveOpenSide`: fill the single empty side first;
otherwise return the alternation pointer and flip it. -/
def resolveOpenSide (s : EngineState) : Side × EngineState :=
  if !s.occOriginal && s.occModified then
    (Side.original, s)
  else if s.occOriginal && !s.occModified then
    (Side.modified, s)
  else
    (s.openSlot, { s with openSlot := s.openSlot.flip })

/-- Embedding of `reserveSide`: mark the side occupied, returning whether
it was empty before. -/
def reserveSide (side : Side) (s : EngineState) : Bool × EngineState :=
  (!s.occ side, s.setOcc side true)

/-- JS truthiness of a nullable string: non-null and non-empty
(`Boolean(path)` is `false` for both `null` and `""`). -/
def pathTruthy : Option String → Bool
  | some p => p != ""
  | none => false

/-- Embedding of `setSideContent`: directly assign text and source label to
a side; `occupied` becomes `Boolean(path)` — false for a null and for an
empty-string label. -/
def setSideContent (side : Side) (contents : List Char) (path : Option String)
    (s : EngineState) : EngineState :=
  ((s.setText side contents).setPath side path).setOcc side (pathTruthy path)

/-- `formatBytes`: render a byte count as `"x.y MB"`, `"x.y KB"` or `"n B"`,
with one decimal digit rounded to nearest (`toFixed(1)`). -/
def tenthsToString (t : Nat) : String :=
  toString (t / 10) ++ "." ++ toString (t % 10)

/-- Embedding of `formatBytes`. -/
def formatBytes (bytes : Nat) : String :=
  if bytes ≥ 1024 * 1024 then
    tenthsToString ((bytes * 10 + 524288) / 1048576) ++ " MB"
  else if bytes ≥ 1024 then
    tenthsToString ((bytes * 10 + 512) / 1024) ++ " KB"
  else
    toString bytes ++ " B"

/-- Embedding of `showLoadedStatus`: the message shown after a successful
single-file load, noting large files at or above the threshold. -/
def showLoadedStatus (largeFileThreshold : Nat) (size : Nat) : String :=
  if size ≥ largeFileThreshold then
    "File loaded. Large: " ++ formatBytes size ++ "."
  else
    "File loaded."

/-- `preferredSide ?? resolveOpenSide()`: take the explicitly preferred side
when given (no alternation logic runs), else resolve one. -/
def resolvePreferred (preferredSide : Option Side) (s : EngineState) :
    Side × EngineState :=
  match preferredSide with
  | some side => (side, s)
  | none => resolveOpenSide s

/-- Embedding of `openFilePath`: resolve the target side (preferred side, or
`resolveOpenSide`), reserve it, load, and on failure roll the reservation
back exactly when the side was empty before. Returns the new state and the
status message shown (`none` for the empty-path no-op). -/
def openFilePath (largeFileThreshold : Nat) (fs : FS) (path : String)
    (preferredSide : Option Side) (s : EngineState) : EngineState × Option String :=
  if path = "" then (s, none)
  else
    let resolved := resolvePreferred preferredSide s
    let side := resolved.1
    let reserved := reserveSide side resolved.2
    let sideWasEmpty := reserved.1
    let loadRes := loadFileToSide fs path side reserved.2
    if loadRes.1.ok then
      (loadRes.2, some (showLoadedStatus largeFileThreshold loadRes.1.size))
    else
      ((if sideWasEmpty then loadRes.2.setOcc side false else loadRes.2),
        some "Failed to load file.")

/-- Embedding of `handleOpenFile`: reserve the requested side, show the file
dialog (its outcome is the `selection` parameter; `none` covers both a
cancelled dialog and a multi-selection array, which the code treats alike),
then load; rollback on cancel or failure exactly when the side was empty. -/
def handleOpenFile (largeFileThreshold : Nat) (fs : FS) (side : Side)
    (selection : Option String) (s : EngineState) : EngineState × Option String :=
  let reserved := reserveSide side s
  let sideWasEmpty := reserved.1
  match selection with
  | none =>
      ((if sideWasEmpty then reserved.2.setOcc side false else reserved.2), none)
  | some sel =>
      let loadRes := loadFileToSide fs sel side reserved.2
      if loadRes.1.ok then
        (loadRes.2, some (showLoadedStatus largeFileThreshold loadRes.1.size))
      else
        ((if sideWasEmpty then loadRes.2.setOcc side false else loadRes.2),
          some "Failed to load file.")

/-- The origin tag of a batch: `"drop"` or `"open"`. -/
inductive OpenSource
  | drop
  | osOpen
deriving Repr, DecidableEq

/-- `side === "original" ? "Left" : "Right"`. -/
def sideLabel : Side → String
  | .original => "Left"
  | .modified => "Right"

/-- Outcome of `applyPaths`: how many files loaded, which sides got large
files, and the status message shown (`none` when the batch was empty). -/
structure ApplyOutcome where
  loaded : Nat
  largeSides : List String
  status : Option String
deriving Repr, DecidableEq

/-- The status message built at the end of `applyPaths`. -/
def applyStatus (source : OpenSource) (loaded : Nat) (largeSides : List String) : String :=
  if loaded > 0 then
    (if source = OpenSource.drop then "Dropped" else "Loaded") ++ " "
      ++ toString loaded ++ " file" ++ (if loaded > 1 then "s" else "") ++ "."
      ++ (if largeSides.length > 0 then
            " Large: " ++ String.intercalate ", " largeSides ++ "."
          else "")
  else
    "Failed to load files."

/-- The two synchronous `reserveSide` calls of the two-path branch of
`applyPaths`, performed before either load starts. -/
def reserveBoth (firstSide : Side) (s : EngineState) : (Bool × Bool) × EngineState :=
  let r1 := reserveSide firstSide s
  let r2 := reserveSide firstSide.flip r1.2
  ((r1.1, r2.1), r2.2)

/-- `preferredSide ?? "original"`: the first path's target in a 2-path batch. -/
def preferredFirst (preferredSide : Option Side) : Side :=
  match preferredSide with
  | some side => side
  | none => Side.original

/-- The body of `applyPaths` applied to the already-computed `filtered`
list. The two loads of a 2-path batch are issued by `Promise.all` in the
source; both target distinct sides and all mutation happens on one logical
timeline, so they are embedded as sequential loads after both reservations
(`reserveBoth`). -/
def applyFiltered (largeFileThreshold : Nat) (fs : FS) (filtered : List String)
    (source : OpenSource) (preferredSide : Option Side) (s : EngineState) :
    EngineState × ApplyOutcome :=
  match filtered with
  | [] => (s, ⟨0, [], none⟩)
  | [p] =>
      let resolved := resolvePreferred preferredSide s
      let side := resolved.1
      let reserved := reserveSide side resolved.2
      let sideWasEmpty := reserved.1
      let loadRes := loadFileToSide fs p side reserved.2
      let result := loadRes.1
      let loaded := if result.ok then 1 else 0
      let largeSides :=
        if result.ok && result.size ≥ largeFileThreshold then [sideLabel side] else []
      let s1 := if !result.ok && sideWasEmpty then loadRes.2.setOcc side false else loadRes.2
      (s1, ⟨loaded, largeSides, some (applyStatus source loaded largeSides)⟩)
  | p1 :: p2 :: _ =>
      let firstSide := preferredFirst preferredSide
      let secondSide := firstSide.flip
      let reserved := reserveBoth firstSide s
      let firstWasEmpty := reserved.1.1
      let secondWasEmpty := reserved.1.2
      let load1 := loadFileToSide fs p1 firstSide reserved.2
      let load2 := loadFileToSide fs p2 secondSide load1.2
      let r1 := load1.1
      let r2 := load2.1
      let loaded := (if r1.ok then 1 else 0) + (if r2.ok then 1 else 0)
      let largeSides :=
        (if r1.ok && r1.size ≥ largeFileThreshold then [sideLabel firstSide] else [])
          ++ (if r2.ok && r2.size ≥ largeFileThreshold then [sideLabel secondSide] else [])
      let s1 := if !r1.ok && firstWasEmpty then load2.2.setOcc firstSide false else load2.2
      let s2 := if !r2.ok && secondWasEmpty then s1.setOcc secondSide false else s1
      (s2, ⟨loaded, largeSides, some (applyStatus source loaded largeSides)⟩)

/-- Embedding of `applyPaths`: keep the non-empty entries, truncate to at
most two, and dispatch on the result. -/
def applyPaths (largeFileThreshold : Nat) (fs : FS) (paths : List String)
    (source : OpenSource) (preferredSide : Option Side) (s : EngineState) :
    EngineState × ApplyOutcome :=
  applyFiltered largeFileThreshold fs ((paths.filter (fun p => p ≠ "")).take 2)
    source preferredSide s

/-- State of the OS-open debounce machinery: the engine plus
`openQueueRef` and `openQueueTimerRef` (modelled as the absolute time at
which the pending timeout fires, `none` when no timer is pending). -/
structure QueueState where
  engine : EngineState
  queue : List String
  timerFireAt : Option Nat
deriving Repr, DecidableEq

/-- An observable `applyPaths` invocation made by the queue flush. -/
structure BatchCall where
  paths : List String
  source : OpenSource
deriving Repr, DecidableEq

/-- Embedding of `enqueueOpenPaths`, called at absolute time `t`: drop empty
entries; when the queue is empty and no timer pending, reset the alternation
pointer to `"original"`; append to the queue; arm the 250-unit timer only
when none is pending. -/
def enqueueOpenPaths (t : Nat) (paths : List String) (qs : QueueState) : QueueState :=
  let next := paths.filter (fun p => p ≠ "")
  if next.isEmpty then qs
  else
    let engine1 :=
      if qs.queue.isEmpty && qs.timerFireAt = none then
        { qs.engine with openSlot := Side.original }
      else qs.engine
    let timer1 := match qs.timerFireAt with
      | none => some (t + 250)
      | some tf => some tf
    ⟨engine1, qs.queue ++ next, timer1⟩

/-- Embedding of `flushOpenQueue`: take the pending queue, clear it and the
timer, and apply the whole batch with origin `"open"`; the returned list
records the `applyPaths` calls made. -/
def flushOpenQueue (largeFileThreshold : Nat) (fs : FS) (qs : QueueState) :
    QueueState × List BatchCall :=
  let pending := qs.queue
  let cleared : QueueState := { qs with queue := [], timerFireAt := none }
  if pending.length > 0 then
    ({ cleared with
        engine := (applyPaths largeFileThreshold fs pending OpenSource.osOpen none
          cleared.engine).1 },
      [⟨pending, OpenSource.osOpen⟩])
  else
    (cleared, [])

/-- Timed events driving the debounce machinery: an arrival of paths on the
OS-open channel, or the firing of the armed timeout (which has an effect
only when the pending timer is due exactly then). -/
inductive QEvent
  | enq (t : Nat) (paths : List String)
  | fire (t : Nat)

/-- One step of the debounce machinery, recording any `applyPaths` calls. -/
def stepQueue (largeFileThreshold : Nat) (fs : FS) (qs : QueueState) :
    QEvent → QueueState × List BatchCall
  | .enq t paths => (enqueueOpenPaths t paths qs, [])
  | .fire t =>
      if qs.timerFireAt = some t then flushOpenQueue largeFileThreshold fs qs
      else (qs, [])

/-- Run the debounce machinery over a time-ordered event list, collecting
every `applyPaths` call it makes. -/
def runQueue (largeFileThreshold : Nat) (fs : FS) (qs : QueueState) :
    List QEvent → QueueState × List BatchCall
  | [] => (qs, [])
  | e :: es =>
      let step := stepQueue largeFileThreshold fs qs e
      let rest := runQueue largeFileThreshold fs step.1 es
      (rest.1, step.2 ++ rest.2)

/-- One engine operation, as exposed by the `useFileHandlers` hook; load
outcomes are determined by the file-system oracle or dialog-outcome
argument carried by the operation. -/
inductive EngineOp
  | resolve
  | reserve (side : Side)
  | load (fs : FS) (path : String) (side : Side)
  | openPath (fs : FS) (path : String) (preferredSide : Option Side)
  | openDialog (fs : FS) (side : Side) (selection : Option String)
  | applyBatch (fs : FS) (paths : List String) (source : OpenSource)
      (preferredSide : Option Side)
  | setContent (side : Side) (contents : List Char) (path : Option String)

/-- The state transformation of one engine operation (statuses dropped). -/
def stepEngine (largeFileThreshold : Nat) (op : EngineOp) (s : EngineState) : EngineState :=
  match op with
  | .resolve => (resolveOpenSide s).2
  | .reserve side => (reserveSide side s).2
  | .load fs path side => (loadFileToSide fs path side s).2
  | .openPath fs path pref => (openFilePath largeFileThreshold fs path pref s).1
  | .openDialog fs side sel => (handleOpenFile largeFileThreshold fs side sel s).1
  | .applyBatch fs paths source pref => (applyPaths largeFileThreshold fs paths source pref s).1
  | .setContent side contents path => setSideContent side contents path s

/-- `largeFileThreshold` from `App.tsx`: 2 MiB. -/
def largeFileThreshold : Nat := 2 * 1024 * 1024

/-- `gitVirtualPathPrefix`. -/
def gitVirtualTag : String := "git:"

/-- `p4VirtualPathPrefix`. -/
def p4VirtualTag : String := "p4:"

/-- `vcsVirtualPathPrefixes`. -/
def vcsVirtualTags : List String := [gitVirtualTag, p4VirtualTag]

/-- Embedding of `isVirtualPath` on a present string
(`vcsVirtualPathPrefixes.some((prefix) => path.startsWith(prefix))`,
with `startsWith` expressed on the character lists). -/
def isVirtualPath (path : String) : Bool :=
  vcsVirtualTags.any (fun tag => List.isPrefixOf tag.toList path.toList)

/-- `Boolean(path && !isVirtualPath(path))`: the side shows a real file. -/
def isFilePath : Option String → Bool
  | some p => p != "" && !isVirtualPath p
  | none => false

/-- The VCS providers. -/
inductive VcsProvider
  | git
  | p4
deriving Repr, DecidableEq

/-- A history entry as produced by the VCS collaborator. -/
structure HistoryEntry where
  provider : VcsProvider
  hash : String
  timestamp : Nat
  author : String
  summary : String
  path : String
  deleted : Bool
deriving Repr, DecidableEq

/-- `getHistoryId`: short hash for git, change number for p4. -/
def getHistoryId (entry : HistoryEntry) : String :=
  match entry.provider with
  | .git => entry.hash.take 7
  | .p4 => entry.hash

/-- `getHistoryPrefix` of `App.tsx`: the virtual-label lead for a provider. -/
def historyVirtualTag : VcsProvider → String
  | .git => gitVirtualTag
  | .p4 => p4VirtualTag

/-- The slice of `App` state that `handleCompareCommit` reads and writes. -/
structure AppState where
  engine : EngineState
  historySourceSide : Side
  historyRepoRoot : Option String
deriving Repr, DecidableEq

/-- `originalIsFile`. -/
def AppState.originalIsFile (s : AppState) : Bool := isFilePath s.engine.originalPath

/-- `modifiedIsFile`. -/
def AppState.modifiedIsFile (s : AppState) : Bool := isFilePath s.engine.modifiedPath

/-- `historyTargetPath`: the real-file path of the designated history
source side, if it indeed shows a real file. -/
def historyTargetPath (s : AppState) : Option String :=
  match s.historySourceSide with
  | .original => if s.originalIsFile then s.engine.originalPath else none
  | .modified => if s.modifiedIsFile then s.engine.modifiedPath else none

/-- Embedding of `handleCompareCommit`: assign a historical revision.
The VCS fetch (`git_show_file` / `p4_show_file`) outcome is the `fetched`
parameter (`none` models a rejected invoke). Returns the new state and the
status message shown. -/
def handleCompareCommit (entry : HistoryEntry) (fetched : Option (List Char))
    (s : AppState) : AppState × String :=
  if entry.deleted then
    (s, "This change deleted the file.")
  else
    match historyTargetPath s with
    | none => (s, "History is not available yet.")
    | some target =>
      if entry.provider = VcsProvider.git && !pathTruthy s.historyRepoRoot then
        (s, "Git history is not available yet.")
      else
        match fetched with
        | none => (s, "Failed to load history content.")
        | some content =>
          let displayId := getHistoryId entry
          let commitLabel := historyVirtualTag entry.provider ++ displayId ++ ":" ++ entry.path
          let workingText :=
            if s.historySourceSide = Side.original then s.engine.originalText
            else s.engine.modifiedText
          let workingPath := target
          let otherSide := s.historySourceSide.flip
          let otherSidePath := s.engine.pathOf otherSide
          let otherSideIsFile :=
            if otherSide = Side.original then s.originalIsFile else s.modifiedIsFile
          let overwroteOtherSide :=
            otherSideIsFile && pathTruthy otherSidePath && otherSidePath != some workingPath
          let engine1 :=
            if s.historySourceSide = Side.original then
              setSideContent Side.original content (some commitLabel)
                (setSideContent Side.modified workingText (some workingPath) s.engine)
            else
              setSideContent Side.original content (some commitLabel) s.engine
          let sourceSide1 :=
            if s.historySourceSide = Side.original then Side.modified else s.historySourceSide
          (⟨engine1, sourceSide1, s.historyRepoRoot⟩,
            "Comparing with " ++ displayId ++ "."
              ++ (if overwroteOtherSide then " Replaced the other side." else ""))

/-- The engine state at reset: both slots empty, pointer at `"original"`. -/
def engineReset : EngineState :=
  ⟨[], [], none, none, Side.original, false, false⟩

/-- A file system on which every read fails. -/
def failFs : FS := fun _ => none

/-- A state with slot A occupied by a real file and slot B empty. -/
def occupiedA : EngineState :=
  ⟨"old".toList, [], some "/a", none, Side.original, true, false⟩

theorem Side.flip_ne (side : Side) : side.flip ≠ side := by
  cases side <;> simp [Side.flip]

@[simp] theorem occ_setOcc (s : EngineState) (side : Side) (v : Bool) (sd : Side) :
    (s.setOcc side v).occ sd = if sd = side then v else s.occ sd := by
  cases side <;> cases sd <;> simp [EngineState.setOcc, EngineState.occ]

@[simp] theorem textOf_setOcc (s : EngineState) (side : Side) (v : Bool) (sd : Side) :
    (s.setOcc side v).textOf sd = s.textOf sd := by
  cases side <;> cases sd <;> simp [EngineState.setOcc, EngineState.textOf]

@[simp] theorem pathOf_setOcc (s : EngineState) (side : Side) (v : Bool) (sd : Side) :
    (s.setOcc side v).pathOf sd = s.pathOf sd := by
  cases side <;> cases sd <;> simp [EngineState.setOcc, EngineState.pathOf]

@[simp] theorem occ_setText (s : EngineState) (side : Side) (c : List Char) (sd : Side) :
    (s.setText side c).occ sd = s.occ sd := by
  cases side <;> cases sd <;> simp [EngineState.setText, EngineState.occ]

@[simp] theorem textOf_setText (s : EngineState) (side : Side) (c : List Char) (sd : Side) :
    (s.setText side c).textOf sd = if sd = side then c else s.textOf sd := by
  cases side <;> cases sd <;> simp [EngineState.setText, EngineState.textOf]

@[simp] theorem pathOf_setText (s : EngineState) (side : Side) (c : List Char) (sd : Side) :
    (s.setText side c).pathOf sd = s.pathOf sd := by
  cases side <;> cases sd <;> simp [EngineState.setText, EngineState.pathOf]

@[simp] theorem occ_setPath (s : EngineState) (side : Side) (p : Option String) (sd : Side) :
    (s.setPath side p).occ sd = s.occ sd := by
  cases side <;> cases sd <;> simp [EngineState.setPath, EngineState.occ]

@[simp] theorem textOf_setPath (s : EngineState) (side : Side) (p : Option String) (sd : Side) :
    (s.setPath side p).textOf sd = s.textOf sd := by
  cases side <;> cases sd <;> simp [EngineState.setPath, EngineState.textOf]

@[simp] theorem pathOf_setPath (s : EngineState) (side : Side) (p : Option String) (sd : Side) :
    (s.setPath side p).pathOf sd = if sd = side then p else s.pathOf sd := by
  cases side <;> cases sd <;> simp [EngineState.setPath, EngineState.pathOf]

@[simp] theorem occ_resolve (s : EngineState) (sd : Side) :
    ((resolveOpenSide s).2).occ sd = s.occ sd := by
  unfold resolveOpenSide
  split
  · rfl
  · split
    · rfl
    · cases sd <;> simp [EngineState.occ]

@[simp] theorem textOf_resolve (s : EngineState) (sd : Side) :
    ((resolveOpenSide s).2).textOf sd = s.textOf sd := by
  unfold resolveOpenSide
  split
  · rfl
  · split
    · rfl
    · cases sd <;> simp [EngineState.textOf]

@[simp] theorem pathOf_resolve (s : EngineState) (sd : Side) :
    ((resolveOpenSide s).2).pathOf sd = s.pathOf sd := by
  unfold resolveOpenSide
  split
  · rfl
  · split
    · rfl
    · cases sd <;> simp [EngineState.pathOf]

@[simp] theorem occ_resolvePreferred (pref : Option Side) (s : EngineState) (sd : Side) :
    ((resolvePreferred pref s).2).occ sd = s.occ sd := by
  cases pref <;> simp [resolvePreferred]

@[simp] theorem textOf_resolvePreferred (pref : Option Side) (s : EngineState) (sd : Side) :
    ((resolvePreferred pref s).2).textOf sd = s.textOf sd := by
  cases pref <;> simp [resolvePreferred]

@[simp] theorem pathOf_resolvePreferred (pref : Option Side) (s : EngineState) (sd : Side) :
    ((resolvePreferred pref s).2).pathOf sd = s.pathOf sd := by
  cases pref <;> simp [resolvePreferred]

theorem loadFileToSide_of_none (fs : FS) (path : String) (side : Side) (s : EngineState)
    (h : fs path = none) : loadFileToSide fs path side s = (⟨false, 0⟩, s) := by
  simp [loadFileToSide, h]

theorem loadFileToSide_of_some (fs : FS) (path : String) (side : Side) (s : EngineState)
    (bytes : List Nat) (h : fs path = some bytes) :
    loadFileToSide fs path side s =
      (⟨true, bytes.length⟩,
        (s.setPath side (some path)).setText side (normalizeNewlines (decodeUtf8 bytes))) := by
  simp [loadFileToSide, h]

@[simp] theorem occ_loadFileToSide (fs : FS) (path : String) (side : Side) (s : EngineState)
    (sd : Side) : ((loadFileToSide fs path side s).2).occ sd = s.occ sd := by
  unfold loadFileToSide
  cases fs path <;> simp

@[simp] theorem fst_reserveSide (side : Side) (s : EngineState) :
    (reserveSide side s).1 = !s.occ side := rfl

@[simp] theorem occ_reserveSide (side : Side) (s : EngineState) (sd : Side) :
    ((reserveSide side s).2).occ sd = if sd = side then true else s.occ sd := by
  simp [reserveSide]

@[simp] theorem textOf_reserveSide (side : Side) (s : EngineState) (sd : Side) :
    ((reserveSide side s).2).textOf sd = s.textOf sd := by
  simp [reserveSide]

@[simp] theorem pathOf_reserveSide (side : Side) (s : EngineState) (sd : Side) :
    ((reserveSide side s).2).pathOf sd = s.pathOf sd := by
  simp [reserveSide]

/-- Fill-empty-first, shared shape: with exactly one side occupied,
`resolveOpenSide` names the empty side and leaves the state untouched. -/
theorem resolveOpenSide_single (s : EngineState)
    (h : s.occOriginal ≠ s.occModified) :
    resolveOpenSide s =
      ((if s.occOriginal then Side.modified else Side.original), s) := by
  unfold resolveOpenSide
  cases ho : s.occOriginal <;> cases hm : s.occModified <;> simp_all

/-- One round of the alternation experiment: a single-file resolve followed
by a simulated successful load of the resolved slot (the load's lasting
effect on the assignment state is the reservation of the slot). -/
def resolveLoadStep (s : EngineState) : Side × EngineState :=
  let r := resolveOpenSide s
  (r.1, (reserveSide r.1 r.2).2)

/-- Iterate `resolveLoadStep` from a start state. -/
def resolveLoadIter (s : EngineState) : Nat → EngineState
  | 0 => s
  | n + 1 => (resolveLoadStep (resolveLoadIter s n)).2

/-- The slot assigned by the n-th (0-based) resolve-then-load round. -/
def assignedAt (s : EngineState) (n : Nat) : Side :=
  (resolveLoadStep (resolveLoadIter s n)).1

theorem resolveLoadIter_reset (k : Nat) :
    resolveLoadIter engineReset (k + 2) =
      ⟨[], [], none, none,
        if k % 2 = 0 then Side.modified else Side.original, true, true⟩ := by
  induction k with
  | zero => decide
  | succ k ih =>
      have hstep : resolveLoadIter engineReset (k + 1 + 2) =
          (resolveLoadStep (resolveLoadIter engineReset (k + 2))).2 := rfl
      rw [hstep, ih]
      rcases Nat.mod_two_eq_zero_or_one k with h | h
      · have h2 : (k + 1) % 2 = 1 := by omega
        rw [h, h2]
        decide
      · have h2 : (k + 1) % 2 = 0 := by omega
        rw [h, h2]
        decide

/-- C3 fails on the code: from reset, the first two resolutions assign A
then B, but the third assigns B again — after the fill-empty-first round
the alternation pointer is still at B, having advanced only during the
first resolution — not A as the claim states. -/
theorem alternation_claim_false :
    assignedAt engineReset 0 = Side.original ∧
    assignedAt engineReset 1 = Side.modified ∧
    assignedAt engineReset 2 ≠ Side.original ∧
    assignedAt engineReset 2 = Side.modified := by decide

/-- C3 amended: from reset, successive resolve-and-load rounds assign A,
then B, and from the third round on alternate starting from B: round n
(0-based, n ≥ 2) assigns B for even n and A for odd n. -/
theorem alternation_amended (n : Nat) (h : 2 ≤ n) :
    assignedAt engineReset 0 = Side.original ∧
    assignedAt engineReset 1 = Side.modified ∧
    assignedAt engineReset n = (if n % 2 = 0 then Side.modified else Side.original) := by
  refine ⟨by decide, by decide, ?_⟩
  obtain ⟨k, rfl⟩ : ∃ k, n = k + 2 := ⟨n - 2, by omega⟩
  unfold assignedAt
  rw [resolveLoadIter_reset]
  rcases Nat.mod_two_eq_zero_or_one k with hk | hk
  · have h2 : (k + 2) % 2 = 0 := by omega
    rw [hk, h2]
    decide
  · have h2 : (k + 2) % 2 = 1 := by omega
    rw [hk, h2]
    decide

/-- Witness for the amended C3 at n = 4. -/
theorem alternation_amended_witness :
    assignedAt engineReset 0 = Side.original ∧
    assignedAt engineReset 1 = Side.modified ∧
    assignedAt engineReset 4 = (if 4 % 2 = 0 then Side.modified else Side.original) :=
  alternation_amended 4 (by omega)

/-- C4: whenever exactly one slot is occupied, the single-file resolve
targets the empty slot regardless of the alternation pointer, and returns
the state unchanged — the pointer does not advance, so later both-occupied
alternation proceeds from where the pointer left off. -/
theorem fillEmptyFirst (s : EngineState) (h : s.occOriginal ≠ s.occModified) :
    resolveOpenSide s =
      ((if s.occOriginal then Side.modified else Side.original), s) :=
  resolveOpenSide_single s h

/-- Witness for C4: slot A occupied, slot B empty, pointer parked on A;
the resolve still targets B and moves nothing. -/
theorem fillEmptyFirst_witness :
    resolveOpenSide occupiedA = (Side.modified, occupiedA) := by
  have h := fillEmptyFirst occupiedA (by decide)
  simpa [occupiedA] using h

/-- C1 fails as stated: with both slots empty and the pointer at A, a failed
single-file open with no side preference targets A; A's occupied flag is
rolled back (it was empty before), but the resolution advanced the
alternation pointer, so the subsequent single-file resolve targets B — the
rolled-back slot is no longer the fill target. -/
theorem singleOpenRollback_claim_false :
    (openFilePath largeFileThreshold failFs "f" none engineReset).1.occOriginal = false ∧
    (resolveOpenSide
        (openFilePath largeFileThreshold failFs "f" none engineReset).1).1
      = Side.modified := by decide

/-- A failed single-file open, in closed form: the reservation of the
target, rolled back exactly when the target was empty before. -/
theorem openFilePath_of_fail (th : Nat) (fs : FS) (path : String) (pref : Option Side)
    (s : EngineState) (hp : path ≠ "") (hfail : fs path = none) :
    openFilePath th fs path pref s =
      ((if s.occ (resolvePreferred pref s).1 = false then
          ((reserveSide (resolvePreferred pref s).1 (resolvePreferred pref s).2).2).setOcc
            (resolvePreferred pref s).1 false
        else
          (reserveSide (resolvePreferred pref s).1 (resolvePreferred pref s).2).2),
        some "Failed to load file.") := by
  unfold openFilePath
  rw [if_neg hp]
  simp only [loadFileToSide_of_none _ _ _ _ hfail, fst_reserveSide]
  cases hocc : s.occ (resolvePreferred pref s).1 <;> simp [hocc]

/-- With one side empty and the other occupied, the resolve names the empty
side. -/
theorem resolveOpenSide_target (s : EngineState) (t : Side)
    (h1 : s.occ t = false) (h2 : s.occ t.flip = true) :
    (resolveOpenSide s).1 = t := by
  cases t
  · simp only [EngineState.occ, Side.flip] at h1 h2
    rw [resolveOpenSide_single s (by simp [h1, h2])]
    simp [h1]
  · simp only [EngineState.occ, Side.flip] at h1 h2
    rw [resolveOpenSide_single s (by simp [h1, h2])]
    simp [h2]

/-- C1 amended: when a single-file open's load fails, the target slot's
occupied flag ends exactly as it was before the open (rolled back iff it
was unoccupied before the reservation), the slot's content and path are
retained, and the failure is reported via status; the slot is still
targeted by a subsequent single-file resolve whenever the other slot is
occupied (with both slots empty the alternation pointer, advanced during
the failed open's resolution, decides instead and may name the other slot). -/
theorem singleOpenRollback (th : Nat) (fs : FS) (path : String) (pref : Option Side)
    (s : EngineState) (hp : path ≠ "") (hfail : fs path = none) :
    (openFilePath th fs path pref s).1.occ (resolvePreferred pref s).1
        = s.occ (resolvePreferred pref s).1 ∧
    (openFilePath th fs path pref s).1.textOf (resolvePreferred pref s).1
        = s.textOf (resolvePreferred pref s).1 ∧
    (openFilePath th fs path pref s).1.pathOf (resolvePreferred pref s).1
        = s.pathOf (resolvePreferred pref s).1 ∧
    (openFilePath th fs path pref s).2 = some "Failed to load file." ∧
    (s.occ (resolvePreferred pref s).1 = false →
      s.occ ((resolvePreferred pref s).1).flip = true →
      (resolveOpenSide (openFilePath th fs path pref s).1).1
        = (resolvePreferred pref s).1) := by
  rw [openFilePath_of_fail th fs path pref s hp hfail]
  cases hocc : s.occ (resolvePreferred pref s).1
  · refine ⟨by simp, by simp, by simp, rfl, ?_⟩
    intro _ hother
    simp only [if_pos rfl]
    apply resolveOpenSide_target
    · simp
    · simp [Side.flip_ne, hother]
  · refine ⟨by simp, by simp, by simp, rfl, ?_⟩
    intro habs _
    simp at habs

/-- Witness for the amended C1: slot A occupied by "/a", a failed overwrite
targeting A leaves it occupied with content and path retained; a failed
open targeting the empty B rolls B back and B stays the fill target. -/
theorem singleOpenRollback_witness :
    ((openFilePath largeFileThreshold failFs "f" (some Side.original) occupiedA).1.occOriginal
        = true ∧
      (openFilePath largeFileThreshold failFs "f" (some Side.original) occupiedA).1.originalText
        = "old".toList ∧
      (openFilePath largeFileThreshold failFs "f" (some Side.original) occupiedA).1.originalPath
        = some "/a" ∧
      (openFilePath largeFileThreshold failFs "f" (some Side.original) occupiedA).2
        = some "Failed to load file.") ∧
    ((openFilePath largeFileThreshold failFs "f" (some Side.modified) occupiedA).1.occModified
        = false ∧
      (resolveOpenSide
          (openFilePath largeFileThreshold failFs "f" (some Side.modified) occupiedA).1).1
        = Side.modified) := by
  have hA := singleOpenRollback largeFileThreshold failFs "f" (some Side.original) occupiedA
    (by decide) rfl
  have hB := singleOpenRollback largeFileThreshold failFs "f" (some Side.modified) occupiedA
    (by decide) rfl
  refine ⟨⟨?_, ?_, ?_, hA.2.2.2.1⟩, ⟨?_, ?_⟩⟩
  · simpa [resolvePreferred, occupiedA, EngineState.occ] using hA.1
  · simpa [resolvePreferred, occupiedA, EngineState.textOf] using hA.2.1
  · simpa [resolvePreferred, occupiedA, EngineState.pathOf] using hA.2.2.1
  · simpa [resolvePreferred, occupiedA, EngineState.occ] using hB.1
  · simpa [resolvePreferred, occupiedA] using hB.2.2.2.2 (by decide) (by decide)

theorem Side.ne_flip (side : Side) : side ≠ side.flip := by
  cases side <;> simp [Side.flip]

theorem Side.eq_or_eq_flip (sd t : Side) : sd = t ∨ sd = t.flip := by
  cases sd <;> cases t <;> simp [Side.flip]

@[simp] theorem fst_reserveBoth (firstSide : Side) (s : EngineState) :
    (reserveBoth firstSide s).1 = (!s.occ firstSide, !s.occ firstSide.flip) := by
  simp [reserveBoth, Side.flip_ne]

@[simp] theorem occ_reserveBoth (firstSide : Side) (s : EngineState) (sd : Side) :
    ((reserveBoth firstSide s).2).occ sd = true := by
  rcases Side.eq_or_eq_flip sd firstSide with h | h <;>
    subst h <;> simp [reserveBoth, Side.flip_ne]

@[simp] theorem textOf_reserveBoth (firstSide : Side) (s : EngineState) (sd : Side) :
    ((reserveBoth firstSide s).2).textOf sd = s.textOf sd := by
  simp [reserveBoth]

@[simp] theorem pathOf_reserveBoth (firstSide : Side) (s : EngineState) (sd : Side) :
    ((reserveBoth firstSide s).2).pathOf sd = s.pathOf sd := by
  simp [reserveBoth]

@[simp] theorem occ_ite (c : Prop) [Decidable c] (x y : EngineState) (sd : Side) :
    (if c then x else y).occ sd = if c then x.occ sd else y.occ sd := by
  split <;> rfl

@[simp] theorem textOf_ite (c : Prop) [Decidable c] (x y : EngineState) (sd : Side) :
    (if c then x else y).textOf sd = if c then x.textOf sd else y.textOf sd := by
  split <;> rfl

@[simp] theorem pathOf_ite (c : Prop) [Decidable c] (x y : EngineState) (sd : Side) :
    (if c then x else y).pathOf sd = if c then x.pathOf sd else y.pathOf sd := by
  split <;> rfl

/-- A successful single-file open, in closed form. -/
theorem openFilePath_of_ok (th : Nat) (fs : FS) (p : String) (pref : Option Side)
    (s : EngineState) (bytes : List Nat) (hp : p ≠ "") (hread : fs p = some bytes) :
    openFilePath th fs p pref s =
      ((((reserveSide (resolvePreferred pref s).1 (resolvePreferred pref s).2).2.setPath
            (resolvePreferred pref s).1 (some p)).setText (resolvePreferred pref s).1
            (normalizeNewlines (decodeUtf8 bytes))),
        some (showLoadedStatus th bytes.length)) := by
  unfold openFilePath
  rw [if_neg hp]
  simp [loadFileToSide_of_some _ _ _ _ _ hread]

/-- A set occupied flag survives `openFilePath`, whatever the outcome. -/
theorem occ_openFilePath_mono (th : Nat) (fs : FS) (p : String) (pref : Option Side)
    (s : EngineState) (sd : Side) (h : s.occ sd = true) :
    ((openFilePath th fs p pref s).1).occ sd = true := by
  by_cases hp : p = ""
  · unfold openFilePath
    rw [if_pos hp]
    exact h
  · cases hread : fs p with
    | none =>
        rw [openFilePath_of_fail th fs p pref s hp hread]
        rcases Side.eq_or_eq_flip sd (resolvePreferred pref s).1 with hsd | hsd <;>
          subst hsd <;> simp_all [Side.flip_ne, Side.ne_flip]
    | some bytes =>
        rw [openFilePath_of_ok th fs p pref s bytes hp hread]
        simp [h]

/-- A set occupied flag survives `handleOpenFile`, whatever the outcome. -/
theorem occ_handleOpenFile_mono (th : Nat) (fs : FS) (side : Side)
    (sel : Option String) (s : EngineState) (sd : Side) (h : s.occ sd = true) :
    ((handleOpenFile th fs side sel s).1).occ sd = true := by
  cases sel with
  | none =>
      simp only [handleOpenFile]
      rcases Side.eq_or_eq_flip sd side with hsd | hsd <;>
        subst hsd <;> simp_all [Side.flip_ne, Side.ne_flip]
  | some p =>
      simp only [handleOpenFile]
      cases hread : fs p with
      | none =>
          simp only [loadFileToSide_of_none _ _ _ _ hread]
          rcases Side.eq_or_eq_flip sd side with hsd | hsd <;>
            subst hsd <;> simp_all [Side.flip_ne, Side.ne_flip]
      | some bytes =>
          simp only [loadFileToSide_of_some _ _ _ _ _ hread]
          simp [h]

/-- A set occupied flag survives `applyFiltered`, whatever the outcome. -/
theorem occ_applyFiltered_mono (th : Nat) (fs : FS) (l : List String)
    (source : OpenSource) (pref : Option Side) (s : EngineState) (sd : Side)
    (h : s.occ sd = true) :
    ((applyFiltered th fs l source pref s).1).occ sd = true := by
  match l with
  | [] => exact h
  | [p] =>
      simp only [applyFiltered]
      cases hread : fs p with
      | none =>
          simp only [loadFileToSide_of_none _ _ _ _ hread]
          rcases Side.eq_or_eq_flip sd (resolvePreferred pref s).1 with hsd | hsd <;>
            subst hsd <;> simp_all [Side.flip_ne, Side.ne_flip]
      | some bytes =>
          simp only [loadFileToSide_of_some _ _ _ _ _ hread]
          simp [h]
  | p1 :: p2 :: rest =>
      simp only [applyFiltered]
      cases hread1 : fs p1 <;> cases hread2 : fs p2
      case none.none =>
        simp only [loadFileToSide_of_none _ _ _ _ hread1,
          loadFileToSide_of_none _ _ _ _ hread2]
        rcases Side.eq_or_eq_flip sd (preferredFirst pref) with hsd | hsd <;>
          subst hsd <;> simp_all [Side.flip_ne, Side.ne_flip]
      case none.some =>
        simp only [loadFileToSide_of_none _ _ _ _ hread1,
          loadFileToSide_of_some _ _ _ _ _ hread2]
        rcases Side.eq_or_eq_flip sd (preferredFirst pref) with hsd | hsd <;>
          subst hsd <;> simp_all [Side.flip_ne, Side.ne_flip]
      case some.none =>
        simp only [loadFileToSide_of_some _ _ _ _ _ hread1,
          loadFileToSide_of_none _ _ _ _ hread2]
        rcases Side.eq_or_eq_flip sd (preferredFirst pref) with hsd | hsd <;>
          subst hsd <;> simp_all [Side.flip_ne, Side.ne_flip]
      case some.some =>
        simp only [loadFileToSide_of_some _ _ _ _ _ hread1,
          loadFileToSide_of_some _ _ _ _ _ hread2]
        rcases Side.eq_or_eq_flip sd (preferredFirst pref) with hsd | hsd <;>
          subst hsd <;> simp_all [Side.flip_ne, Side.ne_flip]

/-- A set occupied flag survives `applyPaths`, whatever the outcome. -/
theorem occ_applyPaths_mono (th : Nat) (fs : FS) (paths : List String)
    (source : OpenSource) (pref : Option Side) (s : EngineState) (sd : Side)
    (h : s.occ sd = true) :
    ((applyPaths th fs paths source pref s).1).occ sd = true :=
  occ_applyFiltered_mono th fs _ source pref s sd h

@[simp] theorem occ_setSideContent (side : Side) (c : List Char) (p : Option String)
    (s : EngineState) (sd : Side) :
    (setSideContent side c p s).occ sd = if sd = side then pathTruthy p else s.occ sd := by
  simp [setSideContent]

@[simp] theorem textOf_setSideContent (side : Side) (c : List Char) (p : Option String)
    (s : EngineState) (sd : Side) :
    (setSideContent side c p s).textOf sd = if sd = side then c else s.textOf sd := by
  simp [setSideContent]

@[simp] theorem pathOf_setSideContent (side : Side) (c : List Char) (p : Option String)
    (s : EngineState) (sd : Side) :
    (setSideContent side c p s).pathOf sd = if sd = side then p else s.pathOf sd := by
  simp [setSideContent]

/-- C2 fails as stated: `setSideContent` with a null source label clears a
set occupied flag (slot A occupied by a real file, then directly assigned
content with a null label, ends unoccupied). -/
theorem occupiedOnceSet_claim_false :
    occupiedA.occOriginal = true ∧
    (setSideContent Side.original [] none occupiedA).occOriginal = false := by decide

/-- C2 amended: across engine operations, a slot's occupied flag that is set
at the start of an operation is still set afterwards for every operation
except `setSideContent` on that slot with a falsy source label (null or the
empty string), which updates the flag to the label's truthiness; a failed
load's rollback can only clear a flag that was still unset when its
operation began. -/
theorem occupiedOnceSet (th : Nat) (op : EngineOp) (s : EngineState) (side : Side)
    (hocc : s.occ side = true)
    (hclear : (stepEngine th op s).occ side = false) :
    ∃ contents path,
      op = EngineOp.setContent side contents path ∧ pathTruthy path = false := by
  cases op with
  | resolve =>
      rw [stepEngine, occ_resolve, hocc] at hclear
      exact absurd hclear (by simp)
  | reserve sd =>
      rw [stepEngine, occ_reserveSide, hocc] at hclear
      split at hclear <;> exact absurd hclear (by simp)
  | load fs p sd =>
      rw [stepEngine, occ_loadFileToSide, hocc] at hclear
      exact absurd hclear (by simp)
  | openPath fs p pref =>
      rw [stepEngine, occ_openFilePath_mono th fs p pref s side hocc] at hclear
      exact absurd hclear (by simp)
  | openDialog fs sd sel =>
      rw [stepEngine, occ_handleOpenFile_mono th fs sd sel s side hocc] at hclear
      exact absurd hclear (by simp)
  | applyBatch fs paths source pref =>
      rw [stepEngine, occ_applyPaths_mono th fs paths source pref s side hocc] at hclear
      exact absurd hclear (by simp)
  | setContent sd contents path =>
      rw [stepEngine, occ_setSideContent] at hclear
      by_cases hsd : side = sd
      · subst hsd
        rw [if_pos rfl] at hclear
        exact ⟨contents, path, rfl, hclear⟩
      · rw [if_neg hsd, hocc] at hclear
        exact absurd hclear (by simp)

/-- Witness for the amended C2: the occupied flag of slot A, set in
`occupiedA`, is cleared in one step only by a `setSideContent` whose source
label is falsy — here the null label. -/
theorem occupiedOnceSet_witness :
    ∃ (contents : List Char) (path : Option String),
      EngineOp.setContent Side.original ([] : List Char) (none : Option String)
        = EngineOp.setContent Side.original contents path ∧ pathTruthy path = false :=
  occupiedOnceSet largeFileThreshold
    (EngineOp.setContent Side.original [] none) occupiedA Side.original
    (by decide) (by decide)

/-- Occupancy and targeting of the two-path branch of `applyPaths`: each
slot's final occupancy is its load's success or-ed with its *pre-batch*
occupancy (independent rollback under the previously-occupied rule, with
the emptiness snapshots taken at reservation time, before any load), and
each successful load lands on its own side: the first path on the
preferred-or-A side, the second on the other. -/
theorem applyFiltered_pair_state (th : Nat) (fs : FS) (p1 p2 : String)
    (rest : List String) (source : OpenSource) (pref : Option Side) (s : EngineState) :
    ((applyFiltered th fs (p1 :: p2 :: rest) source pref s).1).occ (preferredFirst pref)
        = ((fs p1).isSome || s.occ (preferredFirst pref)) ∧
    ((applyFiltered th fs (p1 :: p2 :: rest) source pref s).1).occ (preferredFirst pref).flip
        = ((fs p2).isSome || s.occ (preferredFirst pref).flip) ∧
    ((fs p1).isSome = true →
      ((applyFiltered th fs (p1 :: p2 :: rest) source pref s).1).pathOf (preferredFirst pref)
        = some p1) ∧
    ((fs p2).isSome = true →
      ((applyFiltered th fs (p1 :: p2 :: rest) source pref s).1).pathOf
          (preferredFirst pref).flip
        = some p2) := by
  simp only [applyFiltered]
  cases hread1 : fs p1 <;> cases hread2 : fs p2
  case none.none =>
    simp only [loadFileToSide_of_none _ _ _ _ hread1, loadFileToSide_of_none _ _ _ _ hread2]
    cases hf : s.occ (preferredFirst pref) <;>
      cases hs : s.occ (preferredFirst pref).flip <;>
        simp_all [Side.flip_ne, Side.ne_flip]
  case none.some =>
    simp only [loadFileToSide_of_none _ _ _ _ hread1, loadFileToSide_of_some _ _ _ _ _ hread2]
    cases hf : s.occ (preferredFirst pref) <;>
      cases hs : s.occ (preferredFirst pref).flip <;>
        simp_all [Side.flip_ne, Side.ne_flip]
  case some.none =>
    simp only [loadFileToSide_of_some _ _ _ _ _ hread1, loadFileToSide_of_none _ _ _ _ hread2]
    cases hf : s.occ (preferredFirst pref) <;>
      cases hs : s.occ (preferredFirst pref).flip <;>
        simp_all [Side.flip_ne, Side.ne_flip]
  case some.some =>
    simp only [loadFileToSide_of_some _ _ _ _ _ hread1, loadFileToSide_of_some _ _ _ _ _ hread2]
    cases hf : s.occ (preferredFirst pref) <;>
      cases hs : s.occ (preferredFirst pref).flip <;>
        simp_all [Side.flip_ne, Side.ne_flip]

/-- C5: `applyPaths` discards entries beyond the first two; with exactly two
paths the first targets the preferred slot (else A) and the second the other
slot; both reservations are in place before either load (the batch factors
through `reserveBoth`, which marks both sides occupied); and each load
failure rolls back its own slot independently, using the emptiness snapshot
taken from the pre-batch state. -/
theorem applyBatch_spec (th : Nat) (fs : FS) (s : EngineState)
    (paths : List String) (source : OpenSource) (pref : Option Side)
    (p1 p2 : String)
    (hne : ∀ p ∈ paths, p ≠ "") (h1 : p1 ≠ "") (h2 : p2 ≠ "") :
    applyPaths th fs paths source pref s
        = applyPaths th fs (paths.take 2) source pref s ∧
    ((reserveBoth (preferredFirst pref) s).2).occ (preferredFirst pref) = true ∧
    ((reserveBoth (preferredFirst pref) s).2).occ (preferredFirst pref).flip = true ∧
    ((applyPaths th fs [p1, p2] source pref s).1).occ (preferredFirst pref)
        = ((fs p1).isSome || s.occ (preferredFirst pref)) ∧
    ((applyPaths th fs [p1, p2] source pref s).1).occ (preferredFirst pref).flip
        = ((fs p2).isSome || s.occ (preferredFirst pref).flip) ∧
    ((fs p1).isSome = true →
      ((applyPaths th fs [p1, p2] source pref s).1).pathOf (preferredFirst pref)
        = some p1) ∧
    ((fs p2).isSome = true →
      ((applyPaths th fs [p1, p2] source pref s).1).pathOf (preferredFirst pref).flip
        = some p2) := by
  have hred : applyPaths th fs [p1, p2] source pref s
      = applyFiltered th fs [p1, p2] source pref s := by
    unfold applyPaths
    simp [List.filter, h1, h2]
  have hpair := applyFiltered_pair_state th fs p1 p2 [] source pref s
  refine ⟨?_, by simp, by simp, ?_, ?_, ?_, ?_⟩
  · unfold applyPaths
    have hfull : paths.filter (fun p => p ≠ "") = paths :=
      List.filter_eq_self.mpr (fun a ha => by simpa using hne a ha)
    have htake : (paths.take 2).filter (fun p => p ≠ "") = paths.take 2 :=
      List.filter_eq_self.mpr (fun a ha => by simpa using hne a (List.take_subset _ _ ha))
    rw [hfull, htake, List.take_take]
    norm_num
  · rw [hred]
    exact hpair.1
  · rw [hred]
    exact hpair.2.1
  · rw [hred]
    exact hpair.2.2.1
  · rw [hred]
    exact hpair.2.2.2

/-- A file system where only the path "ok" reads successfully. -/
def mixFs : FS := fun p => if p = "ok" then some [0x61] else none

/-- Witness for C5: a third entry is discarded; in the pair batch the first
path lands on A (no preference), the failed second load rolls only B back,
and A records the loaded path. -/
theorem applyBatch_spec_witness :
    applyPaths largeFileThreshold mixFs ["ok", "bad", "extra"] OpenSource.drop none
        engineReset
      = applyPaths largeFileThreshold mixFs ["ok", "bad"] OpenSource.drop none engineReset ∧
    ((applyPaths largeFileThreshold mixFs ["ok", "bad"] OpenSource.drop none
        engineReset).1).occOriginal = true ∧
    ((applyPaths largeFileThreshold mixFs ["ok", "bad"] OpenSource.drop none
        engineReset).1).occModified = false ∧
    ((applyPaths largeFileThreshold mixFs ["ok", "bad"] OpenSource.drop none
        engineReset).1).originalPath = some "ok" := by
  have h := applyBatch_spec largeFileThreshold mixFs engineReset ["ok", "bad", "extra"]
    OpenSource.drop none "ok" "bad"
    (by
      intro p hp
      simp only [List.mem_cons, List.not_mem_nil, or_false] at hp
      rcases hp with rfl | rfl | rfl <;> decide)
    (by decide) (by decide)
  refine ⟨?_, ?_, ?_, ?_⟩
  · simpa using h.1
  · simpa [mixFs, engineReset, preferredFirst, EngineState.occ] using h.2.2.2.1
  · simpa [mixFs, engineReset, preferredFirst, Side.flip, EngineState.occ]
      using h.2.2.2.2.1
  · simpa [preferredFirst, EngineState.pathOf]
      using h.2.2.2.2.2.1 (by simp [mixFs])

/-- C6: a path enqueued on the OS-open channel, joined by a second path
within the debounce window, results in exactly one `applyPaths` call when
the timer fires, carrying both paths with origin `open` — not two separate
single-file batches. -/
theorem debounceCoalescing (th : Nat) (fs : FS) (e : EngineState)
    (t0 t1 : Nat) (p1 p2 : String) (h1 : p1 ≠ "") (h2 : p2 ≠ "")
    (hord : t0 ≤ t1) (hwin : t1 < t0 + 250) :
    (runQueue th fs ⟨e, [], none⟩
        [QEvent.enq t0 [p1], QEvent.enq t1 [p2], QEvent.fire (t0 + 250)]).2
      = [⟨[p1, p2], OpenSource.osOpen⟩] := by
  simp [runQueue, stepQueue, enqueueOpenPaths, flushOpenQueue, List.filter, h1, h2]

/-- Witness for C6 at t0 = 0, t1 = 100. -/
theorem debounceCoalescing_witness :
    (runQueue largeFileThreshold failFs ⟨engineReset, [], none⟩
        [QEvent.enq 0 ["p1"], QEvent.enq 100 ["p2"], QEvent.fire (0 + 250)]).2
      = [⟨["p1", "p2"], OpenSource.osOpen⟩] :=
  debounceCoalescing largeFileThreshold failFs engineReset 0 100 "p1" "p2"
    (by decide) (by decide) (by omega) (by omega)

/-- C7 fails as stated: a second arrival within the window does not re-arm
or extend the pending timer — after arrivals at t = 0 and t = 200 the timer
still fires at 250 (0 + 250), not at 450 (200 + 250), and the flush happens
at 250 even though a new arrival occurred 50 units earlier, well inside the
fixed delay after the most recent arrival. -/
theorem debounceRearm_claim_false :
    (runQueue largeFileThreshold failFs ⟨engineReset, [], none⟩
        [QEvent.enq 0 ["p1"], QEvent.enq 200 ["p2"]]).1.timerFireAt = some 250 ∧
    (runQueue largeFileThreshold failFs ⟨engineReset, [], none⟩
        [QEvent.enq 0 ["p1"], QEvent.enq 200 ["p2"]]).1.timerFireAt ≠ some 450 ∧
    (runQueue largeFileThreshold failFs ⟨engineReset, [], none⟩
        [QEvent.enq 0 ["p1"], QEvent.enq 200 ["p2"], QEvent.fire 250]).2
      = [⟨["p1", "p2"], OpenSource.osOpen⟩] := by decide

/-- C7 amended: the debounce timer is armed only on an arrival that finds no
pending timer; arrivals while a timer is pending are appended to the queue
without extending or replacing the timer, so the accumulated queue is
flushed as one `applyPaths` call a fixed 250 units after the arrival that
armed the timer, regardless of later arrivals — a path arriving inside the
window of the most recent arrival but after that flush starts a fresh
queue and a fresh timer. -/
theorem debounceArmOnce (th : Nat) (fs : FS) (e : EngineState)
    (t0 t1 t2 : Nat) (p1 p2 p3 : String)
    (h1 : p1 ≠ "") (h2 : p2 ≠ "") (h3 : p3 ≠ "")
    (hord1 : t0 ≤ t1) (hw1 : t1 < t0 + 250)
    (hord2 : t0 + 250 ≤ t2) (hw2 : t2 < t1 + 250) :
    (runQueue th fs ⟨e, [], none⟩
        [QEvent.enq t0 [p1], QEvent.enq t1 [p2], QEvent.fire (t0 + 250),
          QEvent.enq t2 [p3]]).2
      = [⟨[p1, p2], OpenSource.osOpen⟩] ∧
    (runQueue th fs ⟨e, [], none⟩
        [QEvent.enq t0 [p1], QEvent.enq t1 [p2], QEvent.fire (t0 + 250),
          QEvent.enq t2 [p3]]).1.queue = [p3] ∧
    (runQueue th fs ⟨e, [], none⟩
        [QEvent.enq t0 [p1], QEvent.enq t1 [p2], QEvent.fire (t0 + 250),
          QEvent.enq t2 [p3]]).1.timerFireAt = some (t2 + 250) := by
  refine ⟨?_, ?_, ?_⟩ <;>
    simp [runQueue, stepQueue, enqueueOpenPaths, flushOpenQueue, List.filter, h1, h2, h3]

/-- Witness for the amended C7: arrivals at 0 and 200, flush at 250, and a
third path at 320 (inside 200 + 250) starting a fresh queue and timer. -/
theorem debounceArmOnce_witness :
    (runQueue largeFileThreshold failFs ⟨engineReset, [], none⟩
        [QEvent.enq 0 ["p1"], QEvent.enq 200 ["p2"], QEvent.fire (0 + 250),
          QEvent.enq 320 ["p3"]]).2
      = [⟨["p1", "p2"], OpenSource.osOpen⟩] ∧
    (runQueue largeFileThreshold failFs ⟨engineReset, [], none⟩
        [QEvent.enq 0 ["p1"], QEvent.enq 200 ["p2"], QEvent.fire (0 + 250),
          QEvent.enq 320 ["p3"]]).1.queue = ["p3"] ∧
    (runQueue largeFileThreshold failFs ⟨engineReset, [], none⟩
        [QEvent.enq 0 ["p1"], QEvent.enq 200 ["p2"], QEvent.fire (0 + 250),
          QEvent.enq 320 ["p3"]]).1.timerFireAt = some (320 + 250) :=
  debounceArmOnce largeFileThreshold failFs engineReset 0 200 320 "p1" "p2" "p3"
    (by decide) (by decide) (by decide) (by omega) (by omega) (by omega) (by omega)

/-- Normalization leaves no carriage return in its output. -/
theorem contains_cr_normalizeNewlines (l : List Char) :
    (normalizeNewlines l).contains '\r' = false := by
  induction l using normalizeNewlines.induct <;> simp_all [normalizeNewlines, eq_comm]

/-- A file system returning the bytes of "a\r\nb\rc\nd" for every path. -/
def crlfFs : FS := fun _ => some [0x61, 0x0D, 0x0A, 0x62, 0x0D, 0x63, 0x0A, 0x64]

/-- C8: a load fails exactly when the underlying read does — the non-fatal
decoder substitutes invalid sequences (for example a stray 0xFF byte
becomes U+FFFD) and never aborts — and every CRLF and lone CR is normalized
away before storage: the stored text never contains a carriage return, and
the file "a\r\nb\rc\nd" is stored as "a\nb\nc\nd". -/
theorem loadDecodeNormalize :
    (∀ (fs : FS) (path : String) (side : Side) (s : EngineState),
      ((loadFileToSide fs path side s).1).ok = (fs path).isSome) ∧
    (∀ l : List Char, (normalizeNewlines l).contains '\r' = false) ∧
    decodeUtf8 [0xFF, 0x61] = [replacementChar, 'a'] ∧
    (loadFileToSide crlfFs "f" Side.original engineReset).2.originalText
      = "a\nb\nc\nd".toList := by
  refine ⟨?_, contains_cr_normalizeNewlines, by simp [decodeUtf8], ?_⟩
  · intro fs path side s
    unfold loadFileToSide
    cases fs path <;> rfl
  · simp [loadFileToSide, crlfFs, engineReset, decodeUtf8, normalizeNewlines] <;> decide

/-- C9: in a single-file batch whose read succeeds, the loaded file is
flagged large for its slot exactly when its byte size reaches the App's
2 MiB threshold, which is exactly 2,097,152 bytes. -/
theorem largeFileFlag (fs : FS) (p : String) (bytes : List Nat)
    (source : OpenSource) (pref : Option Side) (s : EngineState)
    (hp : p ≠ "") (hread : fs p = some bytes) :
    largeFileThreshold = 2097152 ∧
    (applyPaths largeFileThreshold fs [p] source pref s).2.largeSides
      = (if 2097152 ≤ bytes.length
          then [sideLabel (resolvePreferred pref s).1] else []) := by
  refine ⟨by norm_num [largeFileThreshold], ?_⟩
  have hred : applyPaths largeFileThreshold fs [p] source pref s
      = applyFiltered largeFileThreshold fs [p] source pref s := by
    unfold applyPaths
    simp [List.filter, hp]
  rw [hred]
  simp only [applyFiltered, loadFileToSide_of_some _ _ _ _ _ hread]
  norm_num [largeFileThreshold]

/-- A file system returning exactly 2,097,152 bytes for every path. -/
def bigFs : FS := fun _ => some (List.replicate 2097152 0x61)

/-- A file system returning exactly 2,097,151 bytes for every path. -/
def smallFs : FS := fun _ => some (List.replicate 2097151 0x61)

/-- Witness for C9: a file of exactly 2,097,152 bytes is flagged large for
its slot; one of 2,097,151 bytes is not. -/
theorem largeFileFlag_witness :
    (applyPaths largeFileThreshold bigFs ["big"] OpenSource.osOpen (some Side.original)
        engineReset).2.largeSides = ["Left"] ∧
    (applyPaths largeFileThreshold smallFs ["small"] OpenSource.osOpen (some Side.original)
        engineReset).2.largeSides = [] := by
  constructor
  · have h := (largeFileFlag bigFs "big" (List.replicate 2097152 0x61) OpenSource.osOpen
      (some Side.original) engineReset (by decide) rfl).2
    rw [List.length_replicate, if_pos (le_refl _)] at h
    rw [h]
    rfl
  · have h := (largeFileFlag smallFs "small" (List.replicate 2097151 0x61) OpenSource.osOpen
      (some Side.original) engineReset (by decide) rfl).2
    rw [List.length_replicate, if_neg (by norm_num)] at h
    exact h

/-- Slot A shows the real working file "/a.txt" with working text "W";
slot B independently shows the unrelated real file "/b.txt"; the history
source side is A and a git repo root is known. -/
def unrelatedBState : AppState :=
  ⟨⟨"W".toList, "M".toList, some "/a.txt", some "/b.txt", Side.original, true, true⟩,
    Side.original, some "/repo"⟩

/-- A non-deleted git history entry for the working file. -/
def gitEntry : HistoryEntry :=
  ⟨VcsProvider.git, "abcdef0123", 0, "au", "msg", "a.txt", false⟩

/-- C10 fails as stated: with the history source on A and B independently
showing the unrelated real file "/b.txt", assigning a revision still moves
A's working content to B — overwriting the unrelated file — so the move is
unconditional, not gated on the other side; the replaced-note correctly
fires. -/
theorem historySideSwap_claim_false :
    unrelatedBState.modifiedIsFile = true ∧
    unrelatedBState.engine.modifiedPath = some "/b.txt" ∧
    historyTargetPath unrelatedBState = some "/a.txt" ∧
    (handleCompareCommit gitEntry (some "OLD".toList) unrelatedBState).1.engine.modifiedText
      = "W".toList ∧
    (handleCompareCommit gitEntry (some "OLD".toList) unrelatedBState).1.engine.modifiedPath
      = some "/a.txt" ∧
    (handleCompareCommit gitEntry (some "OLD".toList) unrelatedBState).2
      = "Comparing with abcdef0. Replaced the other side." := by decide

/-- C10 amended: on a successful revision fetch, the revision always lands
in slot A under its virtual commit label; when the history source side is A
the working content is moved to slot B unconditionally — even when B is
independently showing an unrelated real file — and the source marker flips
to B; when the source side is B nothing moves (B keeps its content and
path). The "Replaced the other side." note fires exactly when the other
side had been showing a real file under a path different from the working
file's. -/
theorem historySideSwap (entry : HistoryEntry) (content : List Char) (s : AppState)
    (target : String)
    (hdel : entry.deleted = false)
    (htarget : historyTargetPath s = some target)
    (hgit : entry.provider = VcsProvider.git → pathTruthy s.historyRepoRoot = true) :
    (s.historySourceSide = Side.original →
      ((handleCompareCommit entry (some content) s).1.engine.modifiedText
          = s.engine.originalText ∧
        (handleCompareCommit entry (some content) s).1.engine.modifiedPath = some target ∧
        (handleCompareCommit entry (some content) s).1.historySourceSide
          = Side.modified)) ∧
    (s.historySourceSide = Side.modified →
      ((handleCompareCommit entry (some content) s).1.engine.modifiedText
          = s.engine.modifiedText ∧
        (handleCompareCommit entry (some content) s).1.engine.modifiedPath
          = s.engine.modifiedPath ∧
        (handleCompareCommit entry (some content) s).1.historySourceSide
          = Side.modified)) ∧
    (handleCompareCommit entry (some content) s).1.engine.originalText = content ∧
    (handleCompareCommit entry (some content) s).1.engine.originalPath
      = some (historyVirtualTag entry.provider ++ getHistoryId entry ++ ":" ++ entry.path) ∧
    (handleCompareCommit entry (some content) s).2
      = "Comparing with " ++ getHistoryId entry ++ "."
        ++ (if ((if s.historySourceSide.flip = Side.original then s.originalIsFile
                  else s.modifiedIsFile)
                && pathTruthy (s.engine.pathOf s.historySourceSide.flip)
                && (s.engine.pathOf s.historySourceSide.flip != some target)) = true
            then " Replaced the other side." else "") := by
  have hguard : (entry.provider = VcsProvider.git && !pathTruthy s.historyRepoRoot)
      = false := by
    cases hprov : entry.provider
    · simp [hgit hprov]
    · simp
  unfold handleCompareCommit
  rw [hdel, htarget]
  simp only [Bool.false_eq_true, if_false, hguard]
  cases hside : s.historySourceSide <;>
    simp_all [setSideContent, EngineState.setText, EngineState.setPath,
      EngineState.setOcc, EngineState.pathOf, Side.flip]

/-- Witness for the amended C10: in `unrelatedBState` the revision replaces
A under its label, the working content moves to B unconditionally, and the
source marker flips to B. -/
theorem historySideSwap_witness :
    (handleCompareCommit gitEntry (some "OLD".toList) unrelatedBState).1.engine.modifiedText
      = "W".toList ∧
    (handleCompareCommit gitEntry (some "OLD".toList) unrelatedBState).1.engine.modifiedPath
      = some "/a.txt" ∧
    (handleCompareCommit gitEntry (some "OLD".toList) unrelatedBState).1.engine.originalText
      = "OLD".toList ∧
    (handleCompareCommit gitEntry (some "OLD".toList) unrelatedBState).1.historySourceSide
      = Side.modified := by
  have h := historySideSwap gitEntry "OLD".toList unrelatedBState "/a.txt"
    (by decide) (by decide) (by intro _; decide)
  have h1 := h.1 (by decide)
  exact ⟨by rw [h1.1]; decide, h1.2.1, h.2.2.1, h1.2.2⟩
